import Mathlib

/-!
# Verification of the visibility coordination engine (src/main.rs)

Shallow embedding of the Rust source of `hyprland-autohide-layers`.
The `f32` coordinates of the source are modelled as exact rationals (`ℚ`):
every operation the engine performs on them is field arithmetic and
comparison, so `ℚ` captures the algorithm exactly (no rounding, overflow or
NaN modelling).  Stateful loop bodies are reified as pure functions from
their inputs (the previous state and the outcome of each external query) to
a record of the state written and the observable effects (broadcasts,
sleeps, log events).  I/O failure is made explicit: a `serde` parse error
surfaces as a recoverable `Err` in the source, while a failed
`UnixStream::connect(..).unwrap()` / `read_to_string(..).unwrap()` aborts
the thread; the embedding keeps both outcomes apart.
-/

/-- `CursorPos` of the source: two `f32` coordinates, derived `PartialEq`
compares both fields exactly. -/
structure CursorPos where
  x : ℚ
  y : ℚ
deriving DecidableEq, Repr

/-- `Layer` of the source.  The Rust field `namespace` is a Lean keyword and
is called `nsp` here; `visible` is skipped during deserialization and set at
startup resolution. -/
structure Layer where
  x : ℚ
  y : ℚ
  w : ℚ
  h : ℚ
  nsp : String
  visible : Bool
deriving DecidableEq, Repr

/-- `let y_buffer = self.h * 2.0 / 3.0` of `Layer::does_contain_cursor`. -/
def y_buffer (l : Layer) : ℚ := l.h * 2 / 3

/-- The adjusted upper vertical bound `bar_y_max` computed by
`Layer::does_contain_cursor`: starts at `self.y + self.h` and is changed
only in the near-top branch (`self.y <= self.h`). -/
def bar_y_max (l : Layer) : ℚ :=
  if l.y > l.h then l.y + l.h
  else if l.visible then l.y + l.h + y_buffer l
  else l.y + l.h - y_buffer l

/-- The adjusted lower vertical bound `bar_y_min` computed by
`Layer::does_contain_cursor`: starts at `self.y` and is changed only in the
away-from-top branch (`self.y > self.h`). -/
def bar_y_min (l : Layer) : ℚ :=
  if l.y > l.h then
    (if l.visible then l.y - y_buffer l else l.y + y_buffer l)
  else l.y

/-- `Layer::does_contain_cursor`: the final conjunction
`cursorpos.y <= bar_y_max && cursorpos.y >= bar_y_min &&
 cursorpos.x <= bar_x_max && cursorpos.x >= bar_x_min`
with `bar_x_max = self.x + self.w`, `bar_x_min = self.x`. -/
def does_contain_cursor (l : Layer) (c : CursorPos) : Bool :=
  decide (c.y ≤ bar_y_max l ∧ bar_y_min l ≤ c.y ∧
          c.x ≤ l.x + l.w ∧ l.x ≤ c.x)

/-- The hit-test as §4.1 of the specification words it: buffer
`rect.height * 2/3`, anchor side decided by `rect.y > rect.height`, exactly
one vertical bound adjusted per (anchor, visibility) case, horizontal bounds
raw, all four edges inclusive.  Kept separate from `does_contain_cursor`
(which is translated from the source) so that claim C1 can compare the two. -/
def contains_spec (l : Layer) (c : CursorPos) : Bool :=
  let buffer := l.h * 2 / 3
  let anchoredAwayFromTop := l.y > l.h
  let lower : ℚ :=
    if anchoredAwayFromTop then
      (if l.visible then l.y - buffer else l.y + buffer)
    else l.y
  let upper : ℚ :=
    if anchoredAwayFromTop then l.y + l.h
    else
      (if l.visible then l.y + l.h + buffer else l.y + l.h - buffer)
  decide (lower ≤ c.y ∧ c.y ≤ upper ∧ l.x ≤ c.x ∧ c.x ≤ l.x + l.w)

/-- C1: the hit-test `does_contain_cursor` computes buffer
`rect.height * 2/3`, classifies the surface as anchored away from the top
edge iff `rect.y > rect.height`, adjusts exactly one vertical bound by the
buffer according to the four (anchor, visibility) cases, leaves the
horizontal bounds at the raw rectangle edges, and returns true iff the
pointer lies within the resulting rectangle inclusive of all four edges —
i.e. it coincides with the specification-worded `contains_spec`. -/
theorem does_contain_cursor_matches_spec (l : Layer) (c : CursorPos) :
    does_contain_cursor l c = contains_spec l c := by
  unfold does_contain_cursor contains_spec bar_y_max bar_y_min y_buffer
  by_cases hA : l.y > l.h <;> by_cases hV : l.visible <;>
    simp only [hA, hV, if_true, if_false, if_pos, if_neg, not_false_iff,
      Bool.false_eq_true, decide_eq_decide] <;>
    constructor <;> rintro ⟨h1, h2, h3, h4⟩ <;> exact ⟨h2, h1, h4, h3⟩

/-- C2 fails on the code: the layer at `x = 0, y = 100, w = 10, h = 30`
anchored away from the top and currently hidden shrinks its hit band to
`y ∈ [120, 130]`, so the pointer `(5, 101)`, strictly inside the unbuffered
bounds, is not contained. -/
theorem strictly_inside_hidden_not_contained_cex :
    ((0:ℚ) < 5 ∧ (5:ℚ) < 0 + 10 ∧ (100:ℚ) < 101 ∧ (101:ℚ) < 100 + 30) ∧
    does_contain_cursor ⟨0, 100, 10, 30, "bar", false⟩ ⟨5, 101⟩ = false := by
  constructor
  · norm_num
  · norm_num [does_contain_cursor, bar_y_max, bar_y_min, y_buffer]

/-- C2 (amended): for a *visible* surface, every pointer strictly inside
the unbuffered bounds is contained; for a hidden surface the buffered band
shrinks and this fails (see the counterexample). -/
theorem visible_strictly_inside_contained (l : Layer) (c : CursorPos)
    (hvis : l.visible = true)
    (hx1 : l.x < c.x) (hx2 : c.x < l.x + l.w)
    (hy1 : l.y < c.y) (hy2 : c.y < l.y + l.h) :
    does_contain_cursor l c = true := by
  have hh : 0 < l.h := by linarith
  unfold does_contain_cursor bar_y_max bar_y_min y_buffer
  by_cases hA : l.y > l.h <;>
    simp only [hA, hvis, if_true, if_false, if_pos, if_neg, not_false_iff,
      decide_eq_true_eq] <;>
    refine ⟨by linarith, by linarith, by linarith, by linarith⟩

/-- Witness for C2 (amended) at `rect = (0, 0, 10, 30)`, pointer `(5, 15)`. -/
theorem visible_strictly_inside_contained_witness :
    ((Layer.mk 0 0 10 30 "bar" true).visible = true ∧
     (0:ℚ) < 5 ∧ (5:ℚ) < 0 + 10 ∧ (0:ℚ) < 15 ∧ (15:ℚ) < 0 + 30) ∧
    does_contain_cursor ⟨0, 0, 10, 30, "bar", true⟩ ⟨5, 15⟩ = true := by
  refine ⟨⟨rfl, by norm_num, by norm_num, by norm_num, by norm_num⟩, ?_⟩
  exact visible_strictly_inside_contained ⟨0, 0, 10, 30, "bar", true⟩ ⟨5, 15⟩
    rfl (by norm_num) (by norm_num) (by norm_num) (by norm_num)

/-- C10 fails as stated: a rectangle with positive height but negative width
admits no pointer position at all inside its horizontal bounds, so no
pointer within the original bounds can make the hit-test true. -/
theorem reveal_band_cex :
    (0:ℚ) < (Layer.mk 0 10 (-1) 3 "bar" false).h ∧
    (∀ c : CursorPos, does_contain_cursor ⟨0, 10, -1, 3, "bar", false⟩ c = false) := by
  refine ⟨by norm_num, fun c => ?_⟩
  simp only [does_contain_cursor, decide_eq_false_iff_not]
  rintro ⟨-, -, h3, h4⟩
  norm_num at h3 h4
  linarith

/-- C10 (amended): for every rectangle with positive height and nonnegative
width, the hysteresis buffer is strictly below the height, every
(anchor, visibility) case keeps the adjusted lower bound strictly below the
adjusted upper bound, and for the hidden surface some pointer within the
original bounds passes the hit-test, so the surface can always be revealed. -/
theorem reveal_band_nonempty (l : Layer) (hh : 0 < l.h) (hw : 0 ≤ l.w) :
    y_buffer l < l.h ∧
    (∀ v : Bool, bar_y_min { l with visible := v } < bar_y_max { l with visible := v }) ∧
    (∃ c : CursorPos, l.x ≤ c.x ∧ c.x ≤ l.x + l.w ∧ l.y ≤ c.y ∧ c.y ≤ l.y + l.h ∧
      does_contain_cursor { l with visible := false } c = true) := by
  have hbufpos : 0 < y_buffer l := by unfold y_buffer; linarith
  have hbuflt : y_buffer l < l.h := by unfold y_buffer; linarith
  simp only [y_buffer] at hbufpos hbuflt
  refine ⟨by simpa only [y_buffer] using hbuflt, fun v => ?_, ?_⟩
  · simp only [bar_y_min, bar_y_max, y_buffer]
    by_cases hA : l.y > l.h <;> cases v <;> simp [hA] <;> linarith
  · by_cases hA : l.y > l.h
    · refine ⟨⟨l.x, l.y + l.h⟩, show l.x ≤ l.x from le_refl _,
        show l.x ≤ l.x + l.w by linarith,
        show l.y ≤ l.y + l.h by linarith,
        show l.y + l.h ≤ l.y + l.h from le_refl _, ?_⟩
      simp only [does_contain_cursor, bar_y_max, bar_y_min, y_buffer,
        decide_eq_true_eq]
      simp [hA]
      constructor
      · linarith
      · exact hw
    · refine ⟨⟨l.x, l.y⟩, show l.x ≤ l.x from le_refl _,
        show l.x ≤ l.x + l.w by linarith,
        show l.y ≤ l.y from le_refl _,
        show l.y ≤ l.y + l.h by linarith, ?_⟩
      simp only [does_contain_cursor, bar_y_max, bar_y_min, y_buffer,
        decide_eq_true_eq]
      simp [hA]
      constructor
      · linarith
      · exact hw

/-- Witness for C10 (amended) at `rect = (0, 100, 10, 30)`. -/
theorem reveal_band_nonempty_witness :
    ((0:ℚ) < (Layer.mk 0 100 10 30 "bar" true).h ∧
     (0:ℚ) ≤ (Layer.mk 0 100 10 30 "bar" true).w) ∧
    (y_buffer ⟨0, 100, 10, 30, "bar", true⟩ < (Layer.mk 0 100 10 30 "bar" true).h ∧
     (∀ v : Bool, bar_y_min ⟨0, 100, 10, 30, "bar", v⟩ < bar_y_max ⟨0, 100, 10, 30, "bar", v⟩) ∧
     (∃ c : CursorPos, (0:ℚ) ≤ c.x ∧ c.x ≤ 0 + 10 ∧ (100:ℚ) ≤ c.y ∧ c.y ≤ 100 + 30 ∧
       does_contain_cursor ⟨0, 100, 10, 30, "bar", false⟩ c = true)) := by
  refine ⟨⟨by norm_num, by norm_num⟩, ?_⟩
  exact reveal_band_nonempty ⟨0, 100, 10, 30, "bar", true⟩ (by norm_num) (by norm_num)

/-- A visibility-changed event printed by `Layer::toggle_visibility`
(`"{} revealed."` / `"{} hidden."`). -/
inductive VisibilityEvent where
  | revealed
  | hidden
deriving DecidableEq, Repr

/-- The observable outcome of one `Layer::toggle_visibility` call:
the layer as left behind, whether a toggle dispatch (`pkill -SIGUSR1`) was
attempted, how many seconds were slept before the dispatch, the event
printed, and whether the call returned `Err` (the spawn failed). -/
structure StepResult where
  layer : Layer
  toggleAttempted : Bool
  sleptSecs : Nat
  event : Option VisibilityEvent
  errored : Bool
deriving DecidableEq, Repr

/-- `Layer::toggle_visibility`, with the actuator's success reified as the
argument `actuatorOk` (whether `Command::spawn` succeeds).  The hit-test is
evaluated once, on the position snapshot passed in; the hide branch sleeps
one second *before* dispatching and never re-reads the pointer.  On a failed
dispatch the `?` operator returns early: `self.visible` is not written and
no event is printed. -/
def toggle_visibility (l : Layer) (c : CursorPos) (actuatorOk : Bool) : StepResult :=
  let cursor_over_layer := does_contain_cursor l c
  if cursor_over_layer && !l.visible then
    if actuatorOk then
      { layer := { l with visible := true }, toggleAttempted := true,
        sleptSecs := 0, event := some .revealed, errored := false }
    else
      { layer := l, toggleAttempted := true, sleptSecs := 0,
        event := none, errored := true }
  else if !cursor_over_layer && l.visible then
    if actuatorOk then
      { layer := { l with visible := false }, toggleAttempted := true,
        sleptSecs := 1, event := some .hidden, errored := false }
    else
      { layer := l, toggleAttempted := true, sleptSecs := 1,
        event := none, errored := true }
  else
    { layer := l, toggleAttempted := false, sleptSecs := 0,
      event := none, errored := false }

/-- The watcher thread's loop body (src/main.rs lines 186-198): read the
position snapshot, run `toggle_visibility`, report an `Err` and continue —
the loop keeps the (possibly unchanged) layer either way. -/
def watcher_loop_body (l : Layer) (c : CursorPos) (actuatorOk : Bool) :
    Layer × Bool :=
  ((toggle_visibility l c actuatorOk).layer,
   (toggle_visibility l c actuatorOk).errored)

/-- The watcher decision step as §4.2 of the specification words it: a
two-state machine on `visible`.  Inside & hidden: toggle immediately (no
sleep), become visible, emit "revealed".  Outside & visible: sleep the fixed
1-second debounce first, then unconditionally toggle, become hidden, emit
"hidden" — deciding only from the snapshot taken before the sleep.  All
other cases: change nothing, dispatch nothing. -/
def watcher_decision_spec (l : Layer) (c : CursorPos) : StepResult :=
  let inside := does_contain_cursor l c
  if inside = true ∧ l.visible = false then
    { layer := { l with visible := true }, toggleAttempted := true,
      sleptSecs := 0, event := some .revealed, errored := false }
  else if inside = false ∧ l.visible = true then
    { layer := { l with visible := false }, toggleAttempted := true,
      sleptSecs := 1, event := some .hidden, errored := false }
  else
    { layer := l, toggleAttempted := false, sleptSecs := 0,
      event := none, errored := false }

/-- C3: with a successful actuator, one invocation of the watcher's decision
step behaves exactly as the two-state machine of §4.2: reveal immediately
when the hit-test is true in state Hidden, sleep the 1-second debounce and
then unconditionally hide when the hit-test is false in state Visible
(deciding only from the pre-sleep snapshot — the model takes a single
position argument, evaluated once), and otherwise change nothing and
dispatch no actuation. -/
theorem toggle_visibility_matches_state_machine (l : Layer) (c : CursorPos) :
    toggle_visibility l c true = watcher_decision_spec l c := by
  unfold toggle_visibility watcher_decision_spec
  cases hin : does_contain_cursor l c <;> cases hv : l.visible <;>
    simp [hin, hv]

/-- C4: when the actuator dispatch fails, `toggle_visibility` leaves the
layer's visibility belief unchanged and emits no event; it errors exactly
when a dispatch was attempted (the error is what the watcher loop reports),
and the loop body still returns (the loop continues) with the layer intact. -/
theorem actuation_failure_preserves_state (l : Layer) (c : CursorPos) :
    (toggle_visibility l c false).layer = l ∧
    (toggle_visibility l c false).event = none ∧
    (toggle_visibility l c false).errored =
      (toggle_visibility l c false).toggleAttempted ∧
    watcher_loop_body l c false =
      (l, (toggle_visibility l c false).errored) := by
  unfold watcher_loop_body toggle_visibility
  cases hin : does_contain_cursor l c <;> cases hv : l.visible <;>
    simp [hin, hv]

/-- Outcome of one external query as the source distinguishes them: `ok` is
a parsed value, `err` a `serde` parse/decode failure returned as
`anyhow::Result::Err`, and `panicked` a transport failure on which the
source calls `.unwrap()` and aborts. -/
inductive Outcome (α : Type) where
  | ok : α → Outcome α
  | err : Outcome α
  | panicked : Outcome α
deriving DecidableEq, Repr

/-- `Client` of the source: fullscreen flag, floating flag and
`focusHistoryID` (0 = most recently focused). -/
structure Client where
  fullscreen : Bool
  floating : Bool
  focus_history_id : Nat
deriving DecidableEq, Repr

/-- The pure part of `fullscreen_or_floating_focused`, applied to the parsed
client list: the source returns `false` for an empty list (comment: do not
stop the application when there are no clients) and otherwise asks whether
any client has `focus_history_id == 0` and is fullscreen or floating. -/
def fullscreen_or_floating_focused (clients : List Client) : Bool :=
  if clients.isEmpty then false
  else clients.any fun client =>
    client.focus_history_id == 0 && (client.fullscreen || client.floating)

/-- `fullscreen_or_floating_focused` with its I/O reified:
`UnixStream::connect(socket).unwrap()` and `read_to_string(..).unwrap()`
panic on transport failure; only the `serde_json` parse error is returned
as `Err`. -/
def fullscreen_or_floating_focused_io (connectOk readOk : Bool)
    (parsed : Option (List Client)) : Outcome Bool :=
  if connectOk && readOk then
    match parsed with
    | some clients => .ok (fullscreen_or_floating_focused clients)
    | none => .err
  else .panicked

/-- `get_cursor_pos` with its I/O reified: `connect(..).unwrap()` panics on
transport failure; the `serde_json` parse error is returned as `Err`. -/
def get_cursor_pos_io (connectOk : Bool) (parsed : Option CursorPos) :
    Outcome CursorPos :=
  if connectOk then
    match parsed with
    | some p => .ok p
    | none => .err
  else .panicked

/-- What one iteration of the main poll loop (src/main.rs lines 203-227)
does after its 100 ms sleep: the position left in Cursor State, whether the
pointer was queried at all, whether Cursor State was written, whether
`notify_all` was broadcast, and whether an error was printed. -/
structure TickResult where
  pos : CursorPos
  queriedPointer : Bool
  wrote : Bool
  broadcast : Bool
  reportedErr : Bool
deriving DecidableEq, Repr

/-- One iteration of the main poll loop.  `clientsOut` is the outcome of
`fullscreen_or_floating_focused` (consumed through `.is_ok_and(|res| res)`,
so `Err` behaves as `false`); when the override holds the iteration
`continue`s before querying the pointer.  `cursorOut` is the outcome of
`get_cursor_pos`: on `Err` the error is printed and the iteration skipped;
on a position equal to the stored one (`PartialEq` on both coordinates) the
iteration skips without writing; otherwise the position is stored and
`notify_all` broadcast.  A `panicked` query outcome aborts the loop. -/
def poll_tick (prev : CursorPos) (clientsOut : Outcome Bool)
    (cursorOut : Outcome CursorPos) : Outcome TickResult :=
  match clientsOut with
  | .panicked => .panicked
  | .ok true =>
    .ok { pos := prev, queriedPointer := false, wrote := false,
          broadcast := false, reportedErr := false }
  | _ =>
    match cursorOut with
    | .panicked => .panicked
    | .err =>
      .ok { pos := prev, queriedPointer := true, wrote := false,
            broadcast := false, reportedErr := true }
    | .ok c =>
      if prev = c then
        .ok { pos := prev, queriedPointer := true, wrote := false,
              broadcast := false, reportedErr := false }
      else
        .ok { pos := c, queriedPointer := true, wrote := true,
              broadcast := true, reportedErr := false }

/-- Whether a tick outcome broadcast a wake (a panicked tick broadcasts
nothing). -/
def tickBroadcast : Outcome TickResult → Bool
  | .ok r => r.broadcast
  | _ => false

/-- Whether a tick outcome wrote Cursor State. -/
def tickWrote : Outcome TickResult → Bool
  | .ok r => r.wrote
  | _ => false

/-- Whether a tick outcome queried the pointer position. -/
def tickQueried : Outcome TickResult → Bool
  | .ok r => r.queriedPointer
  | _ => false

/-- C5: a poll tick broadcasts a wake iff it reached the pointer query (no
focus override, no abort) and the freshly queried position differs from the
stored one under exact equality of both coordinates; and a tick whose query
returns the stored position again neither broadcasts nor writes Cursor
State. -/
theorem broadcast_iff_position_changed (prev : CursorPos)
    (clientsOut : Outcome Bool) (cursorOut : Outcome CursorPos) :
    (tickBroadcast (poll_tick prev clientsOut cursorOut) = true ↔
      (clientsOut ≠ Outcome.panicked ∧ clientsOut ≠ Outcome.ok true ∧
       ∃ p, cursorOut = Outcome.ok p ∧ p ≠ prev)) ∧
    tickBroadcast (poll_tick prev clientsOut (Outcome.ok prev)) = false ∧
    tickWrote (poll_tick prev clientsOut (Outcome.ok prev)) = false := by
  constructor
  · rcases clientsOut with b | _ | _
    · cases b
      · rcases cursorOut with c | _ | _
        · by_cases hc : prev = c
          · simp [poll_tick, tickBroadcast, hc]
          · simp [poll_tick, tickBroadcast, hc, Ne.symm hc]
        · simp [poll_tick, tickBroadcast]
        · simp [poll_tick, tickBroadcast]
      · simp [poll_tick, tickBroadcast]
    · rcases cursorOut with c | _ | _
      · by_cases hc : prev = c
        · simp [poll_tick, tickBroadcast, hc]
        · simp [poll_tick, tickBroadcast, hc, Ne.symm hc]
      · simp [poll_tick, tickBroadcast]
      · simp [poll_tick, tickBroadcast]
    · simp [poll_tick, tickBroadcast]
  · constructor <;>
    · rcases clientsOut with b | _ | _
      · cases b <;> simp [poll_tick, tickBroadcast, tickWrote]
      · simp [poll_tick, tickBroadcast, tickWrote]
      · simp [poll_tick, tickBroadcast, tickWrote]

/-- C6 fails as stated: the claim's fail-open conjunct covers every window
query failure, but only a parse failure is returned as `Err` and consumed
through `.is_ok_and`; a transport failure in the window query is
`.unwrap()`-ed and panics the tick instead of proceeding as override
false — with the same inputs, the override-false tick proceeds and
broadcasts while the transport-failed one aborts. -/
theorem window_transport_failure_tick_cex :
    fullscreen_or_floating_focused_io false true none = Outcome.panicked ∧
    poll_tick ⟨0, 0⟩ (fullscreen_or_floating_focused_io false true none)
        (Outcome.ok ⟨1, 1⟩) = Outcome.panicked ∧
    poll_tick ⟨0, 0⟩ (Outcome.ok false) (Outcome.ok ⟨1, 1⟩) =
      Outcome.ok { pos := ⟨1, 1⟩, queriedPointer := true, wrote := true,
                   broadcast := true, reportedErr := false } := by
  refine ⟨rfl, rfl, ?_⟩
  simp only [poll_tick]
  rw [if_neg]
  intro h
  injection h with h1 h2
  exact absurd h1 (by norm_num)

/-- C6 (amended): FocusOverride is computed fresh each tick as "some window
with focus-order index 0 is fullscreen or floating" (the source's
empty-list early return changes nothing); when it is true the tick performs
no pointer query, no Cursor State write and no wake broadcast; and a window
query that fails with a parse/decode error (`Err`, consumed through
`.is_ok_and`) makes the tick behave exactly as if the override were false.
A transport failure of the window query panics instead (see the
counterexample). -/
theorem focus_override_skips_tick (prev : CursorPos) (clients : List Client)
    (cursorOut : Outcome CursorPos) :
    (fullscreen_or_floating_focused clients =
      (clients.any fun client =>
        client.focus_history_id == 0 &&
          (client.fullscreen || client.floating))) ∧
    (fullscreen_or_floating_focused clients = true →
      poll_tick prev (Outcome.ok (fullscreen_or_floating_focused clients))
          cursorOut =
        Outcome.ok { pos := prev, queriedPointer := false, wrote := false,
                     broadcast := false, reportedErr := false }) ∧
    poll_tick prev Outcome.err cursorOut =
      poll_tick prev (Outcome.ok false) cursorOut := by
  refine ⟨?_, ?_, ?_⟩
  · cases clients <;> simp [fullscreen_or_floating_focused]
  · intro hov
    rw [hov]
    rfl
  · rfl

/-- Witness for C6 with one focused floating client, so the override is
true and the tick is skipped. -/
theorem focus_override_skips_tick_witness :
    fullscreen_or_floating_focused [⟨false, true, 0⟩] = true ∧
    poll_tick ⟨0, 0⟩ (Outcome.ok (fullscreen_or_floating_focused [⟨false, true, 0⟩]))
        Outcome.err =
      Outcome.ok { pos := ⟨0, 0⟩, queriedPointer := false, wrote := false,
                   broadcast := false, reportedErr := false } :=
  ⟨rfl, (focus_override_skips_tick ⟨0, 0⟩ [⟨false, true, 0⟩] Outcome.err).2.1 rfl⟩

/-- C7 fails as stated: a transport failure (failed socket connect or read,
which the source consumes with `.unwrap()`) is a QueryFailure under the
specification's taxonomy, yet it panics the main thread instead of being
recovered: both query models abort and the poll tick aborts with them. -/
theorem transport_failure_panics_cex :
    get_cursor_pos_io false none = Outcome.panicked ∧
    fullscreen_or_floating_focused_io false true none = Outcome.panicked ∧
    poll_tick ⟨0, 0⟩ (Outcome.ok false) (get_cursor_pos_io false none) =
      Outcome.panicked ∧
    poll_tick ⟨0, 0⟩ (fullscreen_or_floating_focused_io false true none)
        (Outcome.ok ⟨1, 1⟩) = Outcome.panicked :=
  ⟨rfl, rfl, rfl, rfl⟩

/-- C7 (amended): parse/decode failures during a steady-state poll tick are
recovered locally and never abort: given that neither query had a transport
failure the tick does not panic; a cursor-position parse failure yields a
skipped, reported no-signal tick (nothing written, nothing broadcast); a
window-list parse failure is treated as no override, silently.  Transport
failures, by contrast, panic (see the counterexample). -/
theorem parse_failures_recovered (prev : CursorPos)
    (clientsOut : Outcome Bool) (cursorOut : Outcome CursorPos)
    (hclients : clientsOut ≠ Outcome.panicked)
    (hcursor : cursorOut ≠ Outcome.panicked) :
    poll_tick prev clientsOut cursorOut ≠ Outcome.panicked ∧
    (clientsOut = Outcome.ok true ∨
      poll_tick prev clientsOut Outcome.err =
        Outcome.ok { pos := prev, queriedPointer := true, wrote := false,
                     broadcast := false, reportedErr := true }) := by
  constructor
  · rcases clientsOut with b | _ | _
    · cases b
      · rcases cursorOut with c | _ | _
        · by_cases hc : prev = c <;> simp [poll_tick, hc]
        · simp [poll_tick]
        · exact absurd rfl hcursor
      · simp [poll_tick]
    · rcases cursorOut with c | _ | _
      · by_cases hc : prev = c <;> simp [poll_tick, hc]
      · simp [poll_tick]
      · exact absurd rfl hcursor
    · exact absurd rfl hclients
  · rcases clientsOut with b | _ | _
    · cases b
      · exact Or.inr rfl
      · exact Or.inl rfl
    · exact Or.inr rfl
    · exact absurd rfl hclients

/-- Witness for C7 (amended): a cursor parse failure with a successful,
override-free window query is recovered as a reported no-signal tick. -/
theorem parse_failures_recovered_witness :
    (Outcome.ok false ≠ (Outcome.panicked : Outcome Bool) ∧
     Outcome.err ≠ (Outcome.panicked : Outcome CursorPos)) ∧
    (poll_tick ⟨0, 0⟩ (Outcome.ok false) Outcome.err ≠ Outcome.panicked ∧
     (Outcome.ok false = Outcome.ok true ∨
       poll_tick ⟨0, 0⟩ (Outcome.ok false) Outcome.err =
         Outcome.ok { pos := ⟨0, 0⟩, queriedPointer := true, wrote := false,
                      broadcast := false, reportedErr := true })) :=
  ⟨⟨by simp, by simp⟩,
   parse_failures_recovered ⟨0, 0⟩ (Outcome.ok false) Outcome.err
     (by simp) (by simp)⟩

/-- `type Level = u16` of the source. -/
abbrev Level := Nat

/-- `LayerByLevel` of the source: the per-monitor map of priority level to
surface list, modelled as an association list (the engine only ever flattens
it, so map iteration order is irrelevant to the properties below). -/
structure LayerByLevel where
  levels : List (Level × List Layer)
deriving Repr

/-- The flattening `get_layers` performs over the queried
monitor → level → surfaces mapping. -/
def flatten_layers (by_monitor : List (String × LayerByLevel)) : List Layer :=
  by_monitor.flatMap fun m => m.2.levels.flatMap fun lv => lv.2

/-- `get_layers`, applied to the parsed query result: keep each queried
layer whose `namespace` equals some requested namespace (first match in
request order), rewriting its namespace to the matching requested tag and
setting `visible = true`. -/
def get_layers (namespaces : List String)
    (by_monitor : List (String × LayerByLevel)) : List Layer :=
  (flatten_layers by_monitor).filterMap fun layer =>
    match namespaces.find? (fun n => n == layer.nsp) with
    | some n => some { layer with nsp := n, visible := true }
    | none => none

/-- The startup retry loop of `main` (src/main.rs lines 171-176):
`while layers.len() != opts.namespace.len() { sleep(1 s); re-query }`.
`q k` is the snapshot the (k+1)-th query would parse; `slept` counts the
1-second sleeps taken so far — exactly one per retry, with no backoff
growth — and doubles as the index of the next query.  `fuel` only bounds
the recursion: the source loop is unbounded, which the characterization
theorems express by quantifying over all fuels. -/
def startup_loop (namespaces : List String)
    (q : Nat → List (String × LayerByLevel)) :
    Nat → Nat → Option (List Layer × Nat)
  | 0, _ => none
  | fuel + 1, slept =>
    let layers := get_layers namespaces (q slept)
    if layers.length = namespaces.length then some (layers, slept)
    else startup_loop namespaces q fuel (slept + 1)

theorem get_layers_match_eq (namespaces : List String) (layer : Layer) :
    (match namespaces.find? (fun n => n == layer.nsp) with
     | some n => some { layer with nsp := n, visible := true }
     | none => (none : Option Layer)) =
    (if layer.nsp ∈ namespaces then some { layer with visible := true }
     else none) := by
  cases hf : namespaces.find? (fun n => n == layer.nsp) with
  | none =>
    rw [if_neg]
    intro hmem
    rw [List.find?_eq_none] at hf
    exact hf _ hmem (by simp)
  | some n =>
    have hn : n = layer.nsp := by simpa using List.find?_some hf
    have hmem : layer.nsp ∈ namespaces := hn ▸ List.mem_of_find?_eq_some hf
    rw [if_pos hmem, hn]

theorem get_layers_eq (namespaces : List String)
    (m : List (String × LayerByLevel)) :
    get_layers namespaces m =
      (flatten_layers m).filterMap fun layer =>
        if layer.nsp ∈ namespaces then some { layer with visible := true }
        else none := by
  unfold get_layers
  congr 1
  funext layer
  exact get_layers_match_eq namespaces layer

theorem map_nsp_get_layers (namespaces : List String)
    (m : List (String × LayerByLevel)) :
    (get_layers namespaces m).map (fun l => l.nsp) =
      ((flatten_layers m).map fun l => l.nsp).filter
        (fun s => decide (s ∈ namespaces)) := by
  rw [get_layers_eq]
  induction flatten_layers m with
  | nil => rfl
  | cons a t ih =>
    simp only [List.filterMap_cons, List.map_cons, List.filter_cons]
    by_cases hm : a.nsp ∈ namespaces
    · simpa [hm] using ih
    · simpa [hm] using ih

theorem length_filter_nsp_eq_count (ls : List Layer) (t : String) :
    (ls.filter fun l => l.nsp == t).length = (ls.map fun l => l.nsp).count t := by
  induction ls with
  | nil => rfl
  | cons a tl ih =>
    simp only [List.filter_cons, List.map_cons, List.count_cons]
    by_cases h : a.nsp = t
    · simp [h, ih]
    · simp [h, ih, Ne.symm h]

theorem startup_loop_eq_some_iff (namespaces : List String)
    (q : Nat → List (String × LayerByLevel)) :
    ∀ (fuel start : Nat) (ls : List Layer) (j : Nat),
      startup_loop namespaces q fuel start = some (ls, j) ↔
        (start ≤ j ∧ j < start + fuel ∧
         (∀ k, start ≤ k → k < j →
           (get_layers namespaces (q k)).length ≠ namespaces.length) ∧
         (get_layers namespaces (q j)).length = namespaces.length ∧
         ls = get_layers namespaces (q j)) := by
  intro fuel
  induction fuel with
  | zero =>
    intro start ls j
    simp only [startup_loop]
    constructor
    · intro h; exact absurd h (by simp)
    · rintro ⟨h1, h2, -⟩; omega
  | succ fuel ih =>
    intro start ls j
    simp only [startup_loop]
    by_cases hhit : (get_layers namespaces (q start)).length = namespaces.length
    · rw [if_pos hhit]
      simp only [Option.some.injEq, Prod.mk.injEq]
      constructor
      · rintro ⟨hls, hj⟩
        subst hj
        refine ⟨le_refl _, by omega, ?_, hhit, hls.symm⟩
        intro k hk1 hk2
        exact absurd hk1 (by omega)
      · rintro ⟨hj1, hj2, hmiss, hhit2, hls⟩
        have hj : j = start := by
          by_contra hne
          exact hmiss start (le_refl _) (by omega) hhit
        subst hj
        exact ⟨hls.symm, rfl⟩
    · rw [if_neg hhit]
      rw [ih (start + 1) ls j]
      constructor
      · rintro ⟨h1, h2, h3, h4, h5⟩
        refine ⟨by omega, by omega, ?_, h4, h5⟩
        intro k hk1 hk2
        rcases Nat.eq_or_lt_of_le hk1 with heq | hlt
        · subst heq; exact hhit
        · exact h3 k (by omega) hk2
      · rintro ⟨h1, h2, h3, h4, h5⟩
        have hjs : j ≠ start := by rintro rfl; exact hhit h4
        refine ⟨by omega, by omega, ?_, h4, h5⟩
        intro k hk1 hk2
        exact h3 k (by omega) hk2

theorem startup_loop_eq_none_iff (namespaces : List String)
    (q : Nat → List (String × LayerByLevel)) :
    ∀ (fuel start : Nat),
      startup_loop namespaces q fuel start = none ↔
        ∀ k, start ≤ k → k < start + fuel →
          (get_layers namespaces (q k)).length ≠ namespaces.length := by
  intro fuel
  induction fuel with
  | zero =>
    intro start
    simp only [startup_loop]
    constructor
    · intro _ k hk1 hk2; exact absurd hk1 (by omega)
    · intro _; trivial
  | succ fuel ih =>
    intro start
    simp only [startup_loop]
    by_cases hhit : (get_layers namespaces (q start)).length = namespaces.length
    · rw [if_pos hhit]
      constructor
      · intro h; exact absurd h (by simp)
      · intro h; exact absurd hhit (h start (le_refl _) (by omega))
    · rw [if_neg hhit]
      rw [ih (start + 1)]
      constructor
      · intro h k hk1 hk2
        rcases Nat.eq_or_lt_of_le hk1 with heq | hlt
        · subst heq; exact hhit
        · exact h k (by omega) (by omega)
      · intro h k hk1 hk2
        exact h k (by omega) (by omega)

/-- C8: startup resolution keeps exactly the queried surfaces whose tag is
a requested tag, returning each with `visible = true` (its namespace being
the matching requested tag, which equals its own); and the retry loop —
one 1-second sleep per retry, counted by the accepted pair's second
component, with no backoff growth — returns the surfaces of attempt `j`
iff every earlier attempt had a count mismatch and attempt `j`'s count
equals the requested count, and is still retrying after any finite number
of attempts iff every one of them mismatched (no retry limit). -/
theorem startup_resolution_correct (namespaces : List String)
    (m : List (String × LayerByLevel))
    (q : Nat → List (String × LayerByLevel))
    (fuel : Nat) (ls : List Layer) (j : Nat) :
    (get_layers namespaces m =
      (flatten_layers m).filterMap fun layer =>
        if layer.nsp ∈ namespaces then some { layer with visible := true }
        else none) ∧
    (startup_loop namespaces q fuel 0 = some (ls, j) ↔
      (j < fuel ∧
       (∀ k, k < j →
         (get_layers namespaces (q k)).length ≠ namespaces.length) ∧
       (get_layers namespaces (q j)).length = namespaces.length ∧
       ls = get_layers namespaces (q j))) ∧
    (startup_loop namespaces q fuel 0 = none ↔
      ∀ k, k < fuel →
        (get_layers namespaces (q k)).length ≠ namespaces.length) := by
  refine ⟨get_layers_eq namespaces m, ?_, ?_⟩
  · rw [startup_loop_eq_some_iff]
    constructor
    · rintro ⟨-, h2, h3, h4, h5⟩
      exact ⟨by omega, fun k hk => h3 k (by omega) hk, h4, h5⟩
    · rintro ⟨h2, h3, h4, h5⟩
      exact ⟨by omega, by omega, fun k _ hk => h3 k hk, h4, h5⟩
  · rw [startup_loop_eq_none_iff]
    constructor
    · intro h k hk
      exact h k (by omega) (by omega)
    · intro h k _ hk
      exact h k (by omega)

/-- Witness instantiating C8's characterization: requested tag `"bar"`, a
first snapshot with no matching surface, a second with one; acceptance at
attempt 1 after one 1-second sleep. -/
theorem startup_resolution_correct_witness :
    startup_loop ["bar"]
        (fun k =>
          if k = 0 then []
          else [("m", ⟨[(0, [⟨0, 0, 1, 1, "bar", false⟩])]⟩)]) 2 0 =
      some ([⟨0, 0, 1, 1, "bar", true⟩], 1) :=
  ((startup_resolution_correct ["bar"] []
      (fun k =>
        if k = 0 then []
        else [("m", ⟨[(0, [⟨0, 0, 1, 1, "bar", false⟩])]⟩)]) 2
      [⟨0, 0, 1, 1, "bar", true⟩] 1).2.1).2
    ⟨by omega, fun k hk => by interval_cases k; decide, by decide, by decide⟩

/-- C9 fails as stated: with requested tags `["foo", "bar"]` and a snapshot
containing two surfaces both tagged `"bar"`, the loop accepts (two kept
surfaces, two requested tags) although `"foo"` has no surface and `"bar"`
has two. -/
theorem accepted_duplicate_tags_cex :
    startup_loop ["foo", "bar"]
        (fun _ => [("m", ⟨[(0, [⟨0, 0, 1, 1, "bar", false⟩,
                               ⟨2, 0, 1, 1, "bar", false⟩])]⟩)]) 1 0 =
      some ([⟨0, 0, 1, 1, "bar", true⟩, ⟨2, 0, 1, 1, "bar", true⟩], 0) ∧
    "foo" ∈ ["foo", "bar"] ∧
    (([⟨0, 0, 1, 1, "bar", true⟩, ⟨2, 0, 1, 1, "bar", true⟩] : List Layer).filter
        fun l => l.nsp == "foo").length = 0 ∧
    (([⟨0, 0, 1, 1, "bar", true⟩, ⟨2, 0, 1, 1, "bar", true⟩] : List Layer).filter
        fun l => l.nsp == "bar").length = 2 := by
  refine ⟨rfl, by simp, rfl, rfl⟩

/-- C9 (amended): an accepted startup result pairs each requested tag with
exactly one returned surface *provided* the snapshot's matched surfaces
carry pairwise-distinct tags; without that proviso acceptance only equates
counts, and a duplicated queried tag can cover for a missing one (see the
counterexample). -/
theorem accepted_tags_unique (namespaces : List String)
    (q : Nat → List (String × LayerByLevel)) (fuel : Nat)
    (ls : List Layer) (j : Nat)
    (hacc : startup_loop namespaces q fuel 0 = some (ls, j))
    (hnodup : (((flatten_layers (q j)).map fun l => l.nsp).filter
        (fun s => decide (s ∈ namespaces))).Nodup) :
    ∀ t ∈ namespaces, (ls.filter fun l => l.nsp == t).length = 1 := by
  obtain ⟨-, -, -, hlen, hls⟩ :=
    (startup_loop_eq_some_iff namespaces q fuel 0 ls j).1 hacc
  subst hls
  set ls := get_layers namespaces (q j) with hls_def
  have hmap : ls.map (fun l => l.nsp) =
      ((flatten_layers (q j)).map fun l => l.nsp).filter
        (fun s => decide (s ∈ namespaces)) := map_nsp_get_layers namespaces (q j)
  have hS_nodup : (ls.map fun l => l.nsp).Nodup := by rw [hmap]; exact hnodup
  have hS_sub : ∀ s ∈ ls.map fun l => l.nsp, s ∈ namespaces := by
    intro s hs
    rw [hmap] at hs
    exact of_decide_eq_true (List.mem_filter.1 hs).2
  have hS_len : (ls.map fun l => l.nsp).length = namespaces.length := by
    rw [List.length_map]
    exact hlen
  have hsub : (ls.map fun l => l.nsp).toFinset ⊆ namespaces.toFinset := by
    intro s hs
    rw [List.mem_toFinset] at hs ⊢
    exact hS_sub s hs
  have hcard : namespaces.toFinset.card ≤ (ls.map fun l => l.nsp).toFinset.card := by
    rw [List.toFinset_card_of_nodup hS_nodup, hS_len]
    exact List.toFinset_card_le namespaces
  have heq : (ls.map fun l => l.nsp).toFinset = namespaces.toFinset :=
    Finset.eq_of_subset_of_card_le hsub hcard
  intro t ht
  have htS : t ∈ ls.map fun l => l.nsp := by
    rw [← List.mem_toFinset, heq, List.mem_toFinset]
    exact ht
  rw [length_filter_nsp_eq_count]
  exact List.count_eq_one_of_mem hS_nodup htS

/-- Witness for C9 (amended): requested `["foo", "bar"]`, one queried
surface per tag; each requested tag gets exactly one surface. -/
theorem accepted_tags_unique_witness :
    (startup_loop ["foo", "bar"]
        (fun _ => [("m", ⟨[(0, [⟨0, 0, 1, 1, "foo", false⟩,
                               ⟨2, 0, 1, 1, "bar", false⟩])]⟩)]) 1 0 =
      some ([⟨0, 0, 1, 1, "foo", true⟩, ⟨2, 0, 1, 1, "bar", true⟩], 0) ∧
     (((flatten_layers [("m", ⟨[(0, [⟨0, 0, 1, 1, "foo", false⟩,
          ⟨2, 0, 1, 1, "bar", false⟩])]⟩)]).map fun l => l.nsp).filter
        (fun s => decide (s ∈ ["foo", "bar"]))).Nodup) ∧
    ∀ t ∈ ["foo", "bar"],
      (([⟨0, 0, 1, 1, "foo", true⟩, ⟨2, 0, 1, 1, "bar", true⟩] : List Layer).filter
          fun l => l.nsp == t).length = 1 :=
  ⟨⟨rfl, by decide⟩,
   accepted_tags_unique ["foo", "bar"]
     (fun _ => [("m", ⟨[(0, [⟨0, 0, 1, 1, "foo", false⟩,
                            ⟨2, 0, 1, 1, "bar", false⟩])]⟩)]) 1
     [⟨0, 0, 1, 1, "foo", true⟩, ⟨2, 0, 1, 1, "bar", true⟩] 0 rfl (by decide)⟩
